import Mathlib

/-!
pg_gembed: batch marshalling and row streaming.

A shallow embedding of `src/pg_gembed.c` (with the declarations of
`src/pg_gembed.h`) and the properties of its two SQL-callable operations,
`generate_embeddings` (one-shot) and `generate_embeddings_with_ids`
(set-returning).

Modelling conventions.

* The four functions declared in `pg_gembed.h` live outside the two source
  files.  The three that return a value are fields of `Backend`; every call to
  one of the four is recorded, in program order, as an `Event`.
* `elog(ERROR, ...)` leaves the function at once; it is a `PgError` result.
* A `float` is kept as its 32-bit pattern: the code only copies floats.
* `batch.data` is a pointer; it is modelled by the floats it addresses,
  indexed by offset.
* Machine integers are natural numbers or integers with the wrap-around
  written out, for a 64-bit platform: `size_t` products are taken modulo
  `2^64` (`size_mul`), the narrowing `fctx->nitems = n_vectors` is
  `int_of_size`, a `Datum` and a pointer take 8 bytes and a `float` 4.
* `palloc` hands back a buffer of exactly the size it is asked for; a store past
  the end of a buffer is the result `out_of_bounds`.  Allocation failure is the
  host's business and is not modelled.
* The length of an SQL array is an `int` (`nitems`, `n_ids`, `n_texts`): the
  lists given to the operations stand for arrays of fewer than `2^31` entries.
* An SQL array is the list of its elements, `none` standing for a NULL entry.
-/

namespace PgGembed

/-! ## Data model (`pg_gembed.h`) -/

/-- The constant `INPUT_TYPE_TEXT` of `pg_gembed.h`. -/
def INPUT_TYPE_TEXT : Int := 0

/-- A C `float`, kept as its bit pattern. -/
abbrev CFloat := Nat

/-- The struct `EmbeddingBatch`: `data` is the memory addressed by the pointer. -/
structure EmbeddingBatch where
  data : Nat → CFloat
  n_vectors : Nat
  dim : Nat

/-- A host `text` value: its payload bytes. -/
structure text where
  vardata : List UInt8
deriving DecidableEq, Repr

/-- The struct `StringSlice`: `ptr` is the bytes found at the pointer. -/
structure StringSlice where
  ptr : List UInt8
  len : Nat
deriving DecidableEq, Repr

/-- Host accessor `VARDATA_ANY`: pointer to the payload of a `text`. -/
def VARDATA_ANY (t : text) : List UInt8 := t.vardata

/-- Host accessor `VARSIZE_ANY_EXHDR`: payload size of a `text`. -/
def VARSIZE_ANY_EXHDR (t : text) : Nat := t.vardata.length

/-- Modelled from the spec: the host vector type (`vector.h` is not part of the
repository), "a vector value type carrying (dimension, float payload)"; `unused`
is the second field the source assigns. -/
structure Vector where
  dim : Nat
  unused : Nat
  x : List CFloat
deriving DecidableEq, Repr

/-- The functions declared in `pg_gembed.h` that return a value.  The last one
also fills `out_batch`, so it returns the status together with the batch. -/
structure Backend where
  validate_embedding_method : String → Int
  validate_embedding_model : Int → String → Int → Int
  generate_embeddings_from_texts : Int → Int → List StringSlice → Nat → Int × EmbeddingBatch

/-- One call to a function declared in `pg_gembed.h`, with its arguments. -/
inductive Event where
  | validate_embedding_method (method : String)
  | validate_embedding_model (method_id : Int) (model : String) (input_type : Int)
  | generate_embeddings_from_texts (method_id model_id : Int) (inputs : List StringSlice)
      (n_inputs : Nat)
  | free_embedding_batch
deriving DecidableEq, Repr

/-- The `elog(ERROR, ...)` sites of `pg_gembed.c`, named after the error taxonomy:
"Invalid embedding method: %s ...", "Model not allowed: %s",
"ids and texts arrays must have same length", "NULL values not allowed",
"embedding generation failed (code=%d)". -/
inductive PgError where
  | InvalidMethod (method_str : String)
  | ModelNotAllowed (model_str : String)
  | ArityMismatch
  | NullNotAllowed
  | BackendError (code : Int)
deriving DecidableEq, Repr

/-- Is the event a call of `generate_embeddings_from_texts`? -/
def Event.isBackendCall : Event → Bool
  | .generate_embeddings_from_texts _ _ _ _ => true
  | _ => false

/-- Is the event a call of `free_embedding_batch`? -/
def Event.isRelease : Event → Bool
  | .free_embedding_batch => true
  | _ => false

/-- Is the event a call of one of the two validators? -/
def Event.isValidation : Event → Bool
  | .validate_embedding_method _ => true
  | .validate_embedding_model _ _ _ => true
  | _ => false

/-! ## Shared pieces of the two operations -/

/-- A product computed in `size_t`: it wraps modulo `2^64`. -/
def size_mul (a b : Nat) : Nat := (a * b) % 2 ^ 64

/-- The conversion of a `size_t` to `int` (32 bits, two's complement), as in
`fctx->nitems = n_vectors`. -/
def int_of_size (n : Nat) : Int :=
  if n % 2 ^ 32 < 2 ^ 31 then ((n % 2 ^ 32 : Nat) : Int)
  else ((n % 2 ^ 32 : Nat) : Int) - 2 ^ 32

/-- The slice built for one text (lines 52-54 and 159-161). -/
def slice_of_text (t : text) : StringSlice := ⟨VARDATA_ANY t, VARSIZE_ANY_EXHDR t⟩

/-- The bytes a slice views, `len` bytes starting at `ptr`; `none` when `len`
reaches past the bytes found there. -/
def StringSlice.bytes (s : StringSlice) : Option (List UInt8) :=
  if s.len ≤ s.ptr.length then some (s.ptr.take s.len) else none

/-- The call `memcpy(dst, src + off, count)` for a count of `n` floats: the floats
copied. -/
def memcpy_floats (src : Nat → CFloat) (off n : Nat) : List CFloat :=
  (List.range n).map (fun c => src (off + c))

/-- The body of the copy loop (lines 70-75 and 175-180) for index `i`: the
offset `i * batch.dim` and the byte count `sizeof(float) * batch.dim` are
`size_t` products.  Modelled from the spec: `VECTOR_SIZE` (`vector.h` is not part
of the repository) sizes a vector value so that it holds the floats copied into
it. -/
def copy_vector (batch : EmbeddingBatch) (i : Nat) : Vector :=
  ⟨batch.dim, 0, memcpy_floats batch.data (size_mul i batch.dim) (size_mul 4 batch.dim / 4)⟩

/-- The copy loop (lines 67-76 and 172-181): one vector per `i < n_vectors`,
stored at index `i` of a buffer of `sizeof(Datum) * n_vectors` bytes (a `size_t`
product); `none` when the loop stores past that buffer. -/
def copy_vectors (batch : EmbeddingBatch) : Option (List Vector) :=
  if batch.n_vectors ≤ size_mul 8 batch.n_vectors / 8 then
    some ((List.range batch.n_vectors).map (copy_vector batch))
  else none

/-! ## Operation A: `generate_embeddings` -/

/-- What a call of `generate_embeddings` comes to: an error, the NULL result,
the array of vectors, the dereference of a null datum, a store past the end of
the `vectors` buffer, or a negative element count handed to `construct_array`. -/
inductive Datum_A where
  | error (e : PgError)
  | null
  | array (vectors : List Vector)
  | null_datum_deref
  | out_of_bounds
  | negative_array_size
deriving DecidableEq, Repr

/-- The slice loop of `generate_embeddings` (lines 50-55).  The `nulls` array
filled by `deconstruct_array` is never read: a NULL entry, whose datum is the
null pointer, goes to `DatumGetTextP`, which dereferences it (`none`). -/
def slices_of_texts : List (Option text) → Option (List StringSlice)
  | [] => some []
  | some t :: rest =>
    match slices_of_texts rest with
    | some c_inputs => some (slice_of_text t :: c_inputs)
    | none => none
  | none :: _ => none

/-- The function `generate_embeddings` (lines 15-95): result and calls made.
The host's `construct_array` takes its element count as an `int`, so
`batch.n_vectors` is narrowed on the way in (line 81). -/
def generate_embeddings (X : Backend) (method_str model_str : String)
    (input_array : List (Option text)) : Datum_A × List Event :=
  let method_id := X.validate_embedding_method method_str
  let t1 := [Event.validate_embedding_method method_str]
  if method_id < 0 then (.error (.InvalidMethod method_str), t1) else
  let model_id := X.validate_embedding_model method_id model_str INPUT_TYPE_TEXT
  let t2 := t1 ++ [Event.validate_embedding_model method_id model_str INPUT_TYPE_TEXT]
  if model_id < 0 then (.error (.ModelNotAllowed model_str), t2) else
  let nitems := input_array.length
  if nitems = 0 then (.null, t2) else
  match slices_of_texts input_array with
  | none => (.null_datum_deref, t2)
  | some c_inputs =>
    let r := X.generate_embeddings_from_texts method_id model_id c_inputs nitems
    let t3 := t2 ++ [Event.generate_embeddings_from_texts method_id model_id c_inputs nitems]
    if r.1 < 0 then (.error (.BackendError r.1), t3 ++ [Event.free_embedding_batch]) else
    match copy_vectors r.2 with
    | none => (.out_of_bounds, t3)
    | some vectors =>
      let nelems := int_of_size r.2.n_vectors
      if nelems < 0 then (.negative_array_size, t3) else
      (.array (vectors.take nelems.toNat), t3 ++ [Event.free_embedding_batch])

/-! ## Operation B: `generate_embeddings_with_ids` -/

/-- The struct `user_fctx` (lines 116-122).  The `int` field `current` starts at
0 and is only incremented while below `nitems`, so it is kept as a natural
number. -/
structure user_fctx where
  ids : List Int
  vectors : List Vector
  nitems : Int
  current : Nat
deriving DecidableEq, Repr

/-- What one invocation of `generate_embeddings_with_ids` comes to:
an error, `SRF_RETURN_NEXT` with the row, `SRF_RETURN_DONE`, or an access past
the end of a buffer (a store in the copy loop, or the read of `ids[current]`). -/
inductive SrfResult where
  | error (e : PgError)
  | next (sentence_id : Int) (embedding : Vector)
  | done
  | out_of_bounds
deriving DecidableEq, Repr

/-- What the first-call block comes to: an error, a store past the end of the
`vectors` buffer, or the cursor it stores. -/
inductive FirstCall where
  | error (e : PgError)
  | out_of_bounds
  | ok (fctx : user_fctx)
deriving DecidableEq, Repr

/-- The assembly loop of `generate_embeddings_with_ids` (lines 153-162), run
over the paired entries once the two lengths are known to agree: `none` is the
`elog` of line 156. -/
def assemble_with_ids : List (Option Int × Option text) → Option (List Int × List StringSlice)
  | [] => some ([], [])
  | (some id, some t) :: rest =>
    match assemble_with_ids rest with
    | some (c_ids, c_inputs) => some (id :: c_ids, slice_of_text t :: c_inputs)
    | none => none
  | _ :: _ => none

/-- The first-call block (lines 124-201): the cursor it stores, or the failure. -/
def srf_firstcall (X : Backend) (method_str model_str : String)
    (ids_array : List (Option Int)) (texts_array : List (Option text)) :
    FirstCall × List Event :=
  let method_id := X.validate_embedding_method method_str
  let t1 := [Event.validate_embedding_method method_str]
  if method_id < 0 then (.error (.InvalidMethod method_str), t1) else
  let model_id := X.validate_embedding_model method_id model_str INPUT_TYPE_TEXT
  let t2 := t1 ++ [Event.validate_embedding_model method_id model_str INPUT_TYPE_TEXT]
  if model_id < 0 then (.error (.ModelNotAllowed model_str), t2) else
  let n_ids := ids_array.length
  let n_texts := texts_array.length
  if n_ids ≠ n_texts then (.error .ArityMismatch, t2) else
  match assemble_with_ids (ids_array.zip texts_array) with
  | none => (.error .NullNotAllowed, t2)
  | some (c_ids, c_inputs) =>
    let r := X.generate_embeddings_from_texts method_id model_id c_inputs n_texts
    let t3 := t2 ++ [Event.generate_embeddings_from_texts method_id model_id c_inputs n_texts]
    if r.1 ≠ 0 then (.error (.BackendError r.1), t3) else
    match copy_vectors r.2 with
    | none => (.out_of_bounds, t3)
    | some vectors =>
      (.ok ⟨c_ids, vectors, int_of_size r.2.n_vectors, 0⟩, t3 ++ [Event.free_embedding_batch])

/-- Modelled from the spec: the storage the host keeps for a set-returning call
(the `SRF_*` protocol belongs to the host; `funcapi.h` is not part of the
repository).  It is "engine-managed state storage between calls", holding the
cursor, which is "created once at first invocation" and "destroyed (and all
vector storage released) when ... the sequence is exhausted".  The storage is
`none` until a first call has stored a cursor (`SRF_IS_FIRSTCALL`), and
`SRF_RETURN_DONE` empties it again: an invocation after it is a first call. -/
abbrev fn_extra_t := Option user_fctx

/-- The per-call block (lines 203-223) on the stored cursor: the result and the
storage left behind. -/
def srf_percall (fctx : user_fctx) : SrfResult × fn_extra_t :=
  if (fctx.current : Int) < fctx.nitems then
    match fctx.ids[fctx.current]?, fctx.vectors[fctx.current]? with
    | some id, some v =>
      (.next id v, some ⟨fctx.ids, fctx.vectors, fctx.nitems, fctx.current + 1⟩)
    | _, _ => (.out_of_bounds, some fctx)
  else (.done, none)

/-- One invocation of `generate_embeddings_with_ids` (lines 99-224) on the
storage `fn_extra`: the result, the storage left behind and the calls made.  A
failure in the first-call block leaves nothing stored. -/
def generate_embeddings_with_ids (X : Backend) (method_str model_str : String)
    (ids_array : List (Option Int)) (texts_array : List (Option text))
    (fn_extra : fn_extra_t) : SrfResult × fn_extra_t × List Event :=
  match fn_extra with
  | none =>
    match srf_firstcall X method_str model_str ids_array texts_array with
    | (.error e, tr) => (.error e, none, tr)
    | (.out_of_bounds, tr) => (.out_of_bounds, none, tr)
    | (.ok fctx, tr) => ((srf_percall fctx).1, (srf_percall fctx).2, tr)
  | some fctx => ((srf_percall fctx).1, (srf_percall fctx).2, [])

/-- Does the host invoke again after this result?  A failure ends everything. -/
def SrfResult.continues : SrfResult → Bool
  | .next _ _ => true
  | .done => true
  | _ => false

/-- Modelled from the spec: the host invoking the operation up to `k` times with
the same arguments, starting from the storage `fn_extra`: the results in order
and all calls made.  It stops at the first failure ("all errors abort the
current logical request entirely"); after an exhaustion signal the storage is
empty, so the next invocation, if any, is a first call. -/
def srf_invocations (X : Backend) (method_str model_str : String)
    (ids_array : List (Option Int)) (texts_array : List (Option text)) :
    Nat → fn_extra_t → List SrfResult × List Event
  | 0, _ => ([], [])
  | k + 1, fn_extra =>
    match generate_embeddings_with_ids X method_str model_str ids_array texts_array fn_extra with
    | (r, fn_extra1, tr) =>
      if r.continues then
        (r :: (srf_invocations X method_str model_str ids_array texts_array k fn_extra1).1,
          tr ++ (srf_invocations X method_str model_str ids_array texts_array k fn_extra1).2)
      else ([r], tr)

/-- The first `k` invocations, from the first call on. -/
def srf_request (X : Backend) (method_str model_str : String)
    (ids_array : List (Option Int)) (texts_array : List (Option text)) (k : Nat) :
    List SrfResult × List Event :=
  srf_invocations X method_str model_str ids_array texts_array k none

/-! ## Concrete inputs -/

/-- The text "a". -/
def text_a : text := ⟨[97]⟩

/-- The text "b". -/
def text_b : text := ⟨[98]⟩

/-- The float 1.0 as a bit pattern. -/
def f_one : CFloat := 0x3F800000

/-- A backend double: method "fastembed" (id 0) with model "m1" (id 5); every
call answers `status` with the batch `(buf, n_vectors, dim)`. -/
def backend_double (status : Int) (buf : List CFloat) (n_vectors dim : Nat) : Backend :=
  ⟨fun m => if m = "fastembed" then 0 else -1,
   fun method_id m _ => if method_id = 0 ∧ m = "m1" then 5 else -1,
   fun _ _ _ _ => (status, ⟨fun k => buf.getD k 0, n_vectors, dim⟩)⟩

/-- The backend of the worked example: vectors `[1,0,0]` and `[0,1,0]`. -/
def backend_example : Backend :=
  backend_double 0 [f_one, 0, 0, 0, f_one, 0] 2 3

/-! ## Lemmas on the shared pieces -/

theorem size_mul_eq (a b : Nat) (h : a * b < 2 ^ 64) : size_mul a b = a * b :=
  Nat.mod_eq_of_lt h

theorem int_of_size_eq (n : Nat) (h : n < 2 ^ 31) : int_of_size n = (n : Int) := by
  have h1 : n % 2 ^ 32 = n := Nat.mod_eq_of_lt (by omega)
  unfold int_of_size
  rw [h1, if_pos h]

theorem copy_vectors_eq (B : EmbeddingBatch) (h : B.n_vectors < 2 ^ 31) :
    copy_vectors B = some ((List.range B.n_vectors).map (copy_vector B)) := by
  have h1 : size_mul 8 B.n_vectors = 8 * B.n_vectors := size_mul_eq _ _ (by omega)
  have h2 : B.n_vectors ≤ size_mul 8 B.n_vectors / 8 := by rw [h1]; omega
  simp [copy_vectors, h2]

/-- Inside a batch whose `n_vectors * dim` floats take fewer than `2^63` bytes
(no C object is larger), the copy for index `i` is the `dim` floats at
`data[i * dim ..]`. -/
theorem copy_vector_eq (B : EmbeddingBatch) (i : Nat) (hi : i < B.n_vectors)
    (hfit : B.n_vectors * B.dim * 4 < 2 ^ 63) :
    copy_vector B i =
      ⟨B.dim, 0, (List.range B.dim).map (fun c => B.data (i * B.dim + c))⟩ := by
  have h0 : i * B.dim ≤ B.n_vectors * B.dim := Nat.mul_le_mul_right _ (by omega)
  have h3 : B.dim ≤ B.n_vectors * B.dim := Nat.le_mul_of_pos_left _ (by omega)
  have h1 : size_mul i B.dim = i * B.dim := size_mul_eq _ _ (by omega)
  have h2 : size_mul 4 B.dim = 4 * B.dim := size_mul_eq _ _ (by omega)
  simp [copy_vector, memcpy_floats, h1, h2]

theorem slices_of_texts_some (ts : List text) :
    slices_of_texts (ts.map some) = some (ts.map slice_of_text) := by
  induction ts with
  | nil => rfl
  | cons t ts ih => simp [slices_of_texts, ih]

theorem slices_of_texts_null (ta : List (Option text)) (h : none ∈ ta) :
    slices_of_texts ta = none := by
  induction ta with
  | nil => simp at h
  | cons b ta ih =>
    cases b with
    | none => rfl
    | some t =>
      have h1 : none ∈ ta := by simpa using h
      simp [slices_of_texts, ih h1]

theorem assemble_with_ids_some (ids : List Int) :
    ∀ ts : List text, ids.length = ts.length →
      assemble_with_ids ((ids.map some).zip (ts.map some)) = some (ids, ts.map slice_of_text) := by
  induction ids with
  | nil =>
    intro ts h
    cases ts with
    | nil => rfl
    | cons t ts => simp at h
  | cons i ids ih =>
    intro ts h
    cases ts with
    | nil => simp at h
    | cons t ts =>
      have h1 : ids.length = ts.length := by simpa using h
      show assemble_with_ids ((some i, some t) :: (ids.map some).zip (ts.map some)) = _
      simp only [assemble_with_ids, ih ts h1, List.map_cons]

theorem assemble_with_ids_null (ia : List (Option Int)) :
    ∀ ta : List (Option text), ia.length = ta.length → (none ∈ ia ∨ none ∈ ta) →
      assemble_with_ids (ia.zip ta) = none := by
  induction ia with
  | nil =>
    intro ta h hn
    cases ta with
    | nil => simp at hn
    | cons b ta => simp at h
  | cons a ia ih =>
    intro ta h hn
    cases ta with
    | nil => simp at h
    | cons b ta =>
      have h1 : ia.length = ta.length := by simpa using h
      show assemble_with_ids ((a, b) :: ia.zip ta) = none
      cases a with
      | none => simp [assemble_with_ids]
      | some i =>
        cases b with
        | none => simp [assemble_with_ids]
        | some t =>
          have h2 : none ∈ ia ∨ none ∈ ta := by simpa using hn
          simp [assemble_with_ids, ih ta h1 h2]

theorem slice_of_text_bytes (t : text) : (slice_of_text t).bytes = some t.vardata := by
  simp [slice_of_text, StringSlice.bytes, VARDATA_ANY, VARSIZE_ANY_EXHDR]

/-! ## Lemmas on the invocations of `generate_embeddings_with_ids` -/

/-- Rows, then one exhaustion signal: the invocations on a stored cursor whose
`nitems` is the number `nv` of its vectors, up to the first exhaustion signal. -/
theorem srf_invocations_rows (X : Backend) (m mo : String) (ia : List (Option Int))
    (ta : List (Option text)) (ids : List Int) (vectors : List Vector) (nv : Nat)
    (hv : vectors.length = nv) (hi : nv ≤ ids.length) :
    ∀ (k c : Nat), c + k ≤ nv + 1 →
      srf_invocations X m mo ia ta k (some ⟨ids, vectors, (nv : Int), c⟩) =
        ((List.range k).map (fun j =>
            if c + j < nv then
              SrfResult.next (ids.getD (c + j) 0) (vectors.getD (c + j) ⟨0, 0, []⟩)
            else SrfResult.done), []) := by
  intro k
  induction k with
  | zero => intro c _; rfl
  | succ k ih =>
    intro c hck
    by_cases hc : c < nv
    · have hc1 : (c : Int) < (nv : Int) := by exact_mod_cast hc
      have h1 : ids[c]? = some (ids.getD c 0) := by
        rw [List.getD_eq_getElem?_getD, List.getElem?_eq_getElem (by omega)]; rfl
      have h2 : vectors[c]? = some (vectors.getD c ⟨0, 0, []⟩) := by
        rw [List.getD_eq_getElem?_getD, List.getElem?_eq_getElem (by omega)]; rfl
      simp only [srf_invocations, generate_embeddings_with_ids, srf_percall, hc1, if_true, h1, h2,
        SrfResult.continues, ih (c + 1) (by omega), List.range_succ_eq_map, List.map_cons,
        List.map_map, Nat.add_zero, List.nil_append, hc]
      congr 2
      apply List.map_congr_left
      intro j _
      simp only [Function.comp, Nat.succ_eq_add_one]
      rw [show c + 1 + j = c + (j + 1) by omega]
    · have hc1 : ¬ (c : Int) < (nv : Int) := by exact_mod_cast hc
      have hk : k = 0 := by omega
      subst hk
      simp [srf_invocations, generate_embeddings_with_ids, srf_percall, hc1, hc,
        SrfResult.continues, List.range_succ]

theorem srf_invocations_none_ok (X : Backend) (m mo : String) (ia : List (Option Int))
    (ta : List (Option text)) (fctx : user_fctx) (tr : List Event)
    (h : srf_firstcall X m mo ia ta = (.ok fctx, tr)) (k : Nat) :
    srf_invocations X m mo ia ta (k + 1) none =
      ((srf_invocations X m mo ia ta (k + 1) (some fctx)).1,
        tr ++ (srf_invocations X m mo ia ta (k + 1) (some fctx)).2) := by
  simp only [srf_invocations, generate_embeddings_with_ids, h]
  split <;> simp

theorem srf_invocations_none_error (X : Backend) (m mo : String) (ia : List (Option Int))
    (ta : List (Option text)) (e : PgError) (tr : List Event)
    (h : srf_firstcall X m mo ia ta = (.error e, tr)) (k : Nat) :
    srf_invocations X m mo ia ta (k + 1) none = ([.error e], tr) := by
  simp [srf_invocations, generate_embeddings_with_ids, h, SrfResult.continues]

theorem srf_invocations_none_oob (X : Backend) (m mo : String) (ia : List (Option Int))
    (ta : List (Option text)) (tr : List Event)
    (h : srf_firstcall X m mo ia ta = (.out_of_bounds, tr)) (k : Nat) :
    srf_invocations X m mo ia ta (k + 1) none = ([.out_of_bounds], tr) := by
  simp [srf_invocations, generate_embeddings_with_ids, h, SrfResult.continues]

theorem srf_percall_cases (fctx : user_fctx) :
    (∃ id v f, srf_percall fctx = (SrfResult.next id v, some f))
      ∨ srf_percall fctx = (SrfResult.out_of_bounds, some fctx)
      ∨ srf_percall fctx = (SrfResult.done, none) := by
  unfold srf_percall
  split
  · split
    · exact Or.inl ⟨_, _, _, rfl⟩
    · exact Or.inr (Or.inl rfl)
  · exact Or.inr (Or.inr rfl)

theorem srf_invocations_some_succ (X : Backend) (m mo : String) (ia : List (Option Int))
    (ta : List (Option text)) (k : Nat) (fctx : user_fctx) :
    srf_invocations X m mo ia ta (k + 1) (some fctx) =
      if (srf_percall fctx).1.continues then
        ((srf_percall fctx).1 :: (srf_invocations X m mo ia ta k (srf_percall fctx).2).1,
          (srf_invocations X m mo ia ta k (srf_percall fctx).2).2)
      else ([(srf_percall fctx).1], []) := by
  simp [srf_invocations, generate_embeddings_with_ids]

/-- No call is made by the invocations on a stored cursor, as long as no earlier
invocation has signalled exhaustion. -/
theorem srf_invocations_some_trace (X : Backend) (m mo : String) (ia : List (Option Int))
    (ta : List (Option text)) :
    ∀ (k : Nat) (fctx : user_fctx),
      SrfResult.done ∉ (srf_invocations X m mo ia ta k (some fctx)).1 →
      (srf_invocations X m mo ia ta (k + 1) (some fctx)).2 = [] := by
  intro k
  induction k with
  | zero =>
    intro fctx _
    rw [srf_invocations_some_succ]
    split <;> rfl
  | succ k ih =>
    intro fctx h
    rw [srf_invocations_some_succ] at h ⊢
    rcases srf_percall_cases fctx with ⟨id, v, f, hp⟩ | hp | hp
    · rw [hp] at h ⊢
      simp only [SrfResult.continues, if_true, List.mem_cons, not_or] at h ⊢
      exact ih f h.2
    · rw [hp]
      simp [SrfResult.continues]
    · rw [hp] at h
      simp [SrfResult.continues] at h

/-- Up to the first exhaustion signal, the calls made by the invocations are
those of the first-call block. -/
theorem srf_request_trace (X : Backend) (m mo : String) (ia : List (Option Int))
    (ta : List (Option text)) (k : Nat)
    (h : SrfResult.done ∉ (srf_request X m mo ia ta k).1) :
    (srf_request X m mo ia ta (k + 1)).2 = (srf_firstcall X m mo ia ta).2 := by
  unfold srf_request at h ⊢
  cases hf : srf_firstcall X m mo ia ta with
  | mk r tr =>
    cases r with
    | error e => rw [srf_invocations_none_error X m mo ia ta e tr hf k]
    | out_of_bounds => rw [srf_invocations_none_oob X m mo ia ta tr hf k]
    | ok fctx =>
      have h1 : SrfResult.done ∉ (srf_invocations X m mo ia ta k (some fctx)).1 := by
        cases k with
        | zero => simp [srf_invocations]
        | succ k =>
          rw [srf_invocations_none_ok X m mo ia ta fctx tr hf k] at h
          exact h
      rw [srf_invocations_none_ok X m mo ia ta fctx tr hf k,
        srf_invocations_some_trace X m mo ia ta k fctx h1]
      simp

/-- The calls made by the first-call block on a valid, equal-length, NULL-free
request: each validation once and the backend once. -/
theorem srf_firstcall_valid_trace (X : Backend) (m mo : String) (ids : List Int)
    (ts : List text)
    (hm : 0 ≤ X.validate_embedding_method m)
    (hmo : 0 ≤ X.validate_embedding_model (X.validate_embedding_method m) mo INPUT_TYPE_TEXT)
    (hlen : ids.length = ts.length) :
    (srf_firstcall X m mo (ids.map some) (ts.map some)).2.filter Event.isBackendCall =
        [Event.generate_embeddings_from_texts (X.validate_embedding_method m)
          (X.validate_embedding_model (X.validate_embedding_method m) mo INPUT_TYPE_TEXT)
          (ts.map slice_of_text) ts.length]
      ∧ (srf_firstcall X m mo (ids.map some) (ts.map some)).2.filter Event.isValidation =
        [Event.validate_embedding_method m,
          Event.validate_embedding_model (X.validate_embedding_method m) mo INPUT_TYPE_TEXT] := by
  have h1 : ¬ X.validate_embedding_method m < 0 := by omega
  have h2 : ¬ X.validate_embedding_model (X.validate_embedding_method m) mo INPUT_TYPE_TEXT < 0 := by
    omega
  simp only [srf_firstcall, h1, h2, if_false, List.length_map, hlen, ne_eq, not_true_eq_false,
    assemble_with_ids_some ids ts hlen]
  split
  · simp [Event.isBackendCall, Event.isValidation]
  · split <;> simp [Event.isBackendCall, Event.isValidation]

/-- The first-call block on a valid, equal-length, NULL-free request whose
backend call answers status 0 with a batch of fewer than `2^31` vectors. -/
theorem srf_firstcall_ok (X : Backend) (m mo : String) (ids : List Int) (ts : List text)
    (B : EmbeddingBatch)
    (hm : 0 ≤ X.validate_embedding_method m)
    (hmo : 0 ≤ X.validate_embedding_model (X.validate_embedding_method m) mo INPUT_TYPE_TEXT)
    (hlen : ids.length = ts.length)
    (hB : X.generate_embeddings_from_texts (X.validate_embedding_method m)
      (X.validate_embedding_model (X.validate_embedding_method m) mo INPUT_TYPE_TEXT)
      (ts.map slice_of_text) ts.length = (0, B))
    (hnv : B.n_vectors < 2 ^ 31) :
    srf_firstcall X m mo (ids.map some) (ts.map some) =
      (.ok ⟨ids, (List.range B.n_vectors).map (copy_vector B), (B.n_vectors : Int), 0⟩,
        [Event.validate_embedding_method m,
          Event.validate_embedding_model (X.validate_embedding_method m) mo INPUT_TYPE_TEXT,
          Event.generate_embeddings_from_texts (X.validate_embedding_method m)
            (X.validate_embedding_model (X.validate_embedding_method m) mo INPUT_TYPE_TEXT)
            (ts.map slice_of_text) ts.length,
          Event.free_embedding_batch]) := by
  have h1 : ¬ X.validate_embedding_method m < 0 := by omega
  have h2 : ¬ X.validate_embedding_model (X.validate_embedding_method m) mo INPUT_TYPE_TEXT < 0 := by
    omega
  simp only [srf_firstcall, h1, h2, if_false, List.length_map, hlen, ne_eq, not_true_eq_false,
    assemble_with_ids_some ids ts hlen, hB, copy_vectors_eq B hnv, int_of_size_eq _ hnv]
  simp

/-- The invocations up to the first exhaustion signal, on a valid request whose
backend call answers status 0 with a batch of at most `n` vectors: the rows,
then exhaustion, and the calls made. -/
theorem srf_request_rows (X : Backend) (m mo : String) (ids : List Int) (ts : List text)
    (B : EmbeddingBatch)
    (hm : 0 ≤ X.validate_embedding_method m)
    (hmo : 0 ≤ X.validate_embedding_model (X.validate_embedding_method m) mo INPUT_TYPE_TEXT)
    (hlen : ids.length = ts.length)
    (hB : X.generate_embeddings_from_texts (X.validate_embedding_method m)
      (X.validate_embedding_model (X.validate_embedding_method m) mo INPUT_TYPE_TEXT)
      (ts.map slice_of_text) ts.length = (0, B))
    (hnv : B.n_vectors < 2 ^ 31) (hn : B.n_vectors ≤ ts.length)
    (k : Nat) (hk : k ≤ B.n_vectors) :
    srf_request X m mo (ids.map some) (ts.map some) (k + 1) =
      ((List.range (k + 1)).map (fun j =>
          if j < B.n_vectors then SrfResult.next (ids.getD j 0) (copy_vector B j)
          else SrfResult.done),
        [Event.validate_embedding_method m,
          Event.validate_embedding_model (X.validate_embedding_method m) mo INPUT_TYPE_TEXT,
          Event.generate_embeddings_from_texts (X.validate_embedding_method m)
            (X.validate_embedding_model (X.validate_embedding_method m) mo INPUT_TYPE_TEXT)
            (ts.map slice_of_text) ts.length,
          Event.free_embedding_batch]) := by
  have hf := srf_firstcall_ok X m mo ids ts B hm hmo hlen hB hnv
  unfold srf_request
  rw [srf_invocations_none_ok X m mo _ _ _ _ hf k,
    srf_invocations_rows X m mo _ _ ids ((List.range B.n_vectors).map (copy_vector B))
      B.n_vectors (by simp) (by omega) (k + 1) 0 (by omega)]
  simp only [List.append_nil, Prod.mk.injEq, and_true]
  apply List.map_congr_left
  intro j _
  by_cases hj : j < B.n_vectors
  · have hg : ((List.range B.n_vectors).map (copy_vector B)).getD j ⟨0, 0, []⟩ =
        copy_vector B j := by
      simp [List.getD_eq_getElem?_getD, List.getElem?_map, List.getElem?_range hj]
    simp only [Nat.zero_add, hj, if_true, hg]
  · simp only [Nat.zero_add, hj, if_false]

/-- The calls made by `generate_embeddings` on a valid, non-empty, NULL-free
request include exactly one backend call. -/
theorem generate_embeddings_valid_trace (X : Backend) (m mo : String) (ts : List text)
    (hm : 0 ≤ X.validate_embedding_method m)
    (hmo : 0 ≤ X.validate_embedding_model (X.validate_embedding_method m) mo INPUT_TYPE_TEXT)
    (hne : ts ≠ []) :
    (generate_embeddings X m mo (ts.map some)).2.filter Event.isBackendCall =
      [Event.generate_embeddings_from_texts (X.validate_embedding_method m)
        (X.validate_embedding_model (X.validate_embedding_method m) mo INPUT_TYPE_TEXT)
        (ts.map slice_of_text) ts.length] := by
  have h1 : ¬ X.validate_embedding_method m < 0 := by omega
  have h2 : ¬ X.validate_embedding_model (X.validate_embedding_method m) mo INPUT_TYPE_TEXT < 0 := by
    omega
  have h3 : ¬ ts.length = 0 := by
    intro h0
    exact hne (List.length_eq_zero.mp h0)
  simp only [generate_embeddings, h1, h2, if_false, List.length_map, h3, slices_of_texts_some]
  split
  · simp [Event.isBackendCall]
  · split
    · simp [Event.isBackendCall]
    · split <;> simp [Event.isBackendCall]

/-- The function `generate_embeddings` on a valid, non-empty, NULL-free request
whose backend call answers status 0 with a batch of fewer than `2^31` vectors. -/
theorem generate_embeddings_ok (X : Backend) (m mo : String) (ts : List text)
    (B : EmbeddingBatch)
    (hm : 0 ≤ X.validate_embedding_method m)
    (hmo : 0 ≤ X.validate_embedding_model (X.validate_embedding_method m) mo INPUT_TYPE_TEXT)
    (hne : ts ≠ [])
    (hB : X.generate_embeddings_from_texts (X.validate_embedding_method m)
      (X.validate_embedding_model (X.validate_embedding_method m) mo INPUT_TYPE_TEXT)
      (ts.map slice_of_text) ts.length = (0, B))
    (hnv : B.n_vectors < 2 ^ 31) :
    generate_embeddings X m mo (ts.map some) =
      (Datum_A.array ((List.range B.n_vectors).map (copy_vector B)),
        [Event.validate_embedding_method m,
          Event.validate_embedding_model (X.validate_embedding_method m) mo INPUT_TYPE_TEXT,
          Event.generate_embeddings_from_texts (X.validate_embedding_method m)
            (X.validate_embedding_model (X.validate_embedding_method m) mo INPUT_TYPE_TEXT)
            (ts.map slice_of_text) ts.length,
          Event.free_embedding_batch]) := by
  have h1 : ¬ X.validate_embedding_method m < 0 := by omega
  have h2 : ¬ X.validate_embedding_model (X.validate_embedding_method m) mo INPUT_TYPE_TEXT < 0 := by
    omega
  have h3 : ¬ ts.length = 0 := by
    intro h0
    exact hne (List.length_eq_zero.mp h0)
  have h4 : ¬ (B.n_vectors : Int) < 0 := by omega
  simp only [generate_embeddings, h1, h2, if_false, List.length_map, h3, slices_of_texts_some, hB,
    copy_vectors_eq B hnv, int_of_size_eq _ hnv, h4, Int.toNat_ofNat]
  simp

/-- The function `generate_embeddings` on a valid request with a NULL entry: the
null datum is dereferenced, before any backend call. -/
theorem generate_embeddings_null_entry (X : Backend) (m mo : String)
    (ta : List (Option text))
    (hm : 0 ≤ X.validate_embedding_method m)
    (hmo : 0 ≤ X.validate_embedding_model (X.validate_embedding_method m) mo INPUT_TYPE_TEXT)
    (h : none ∈ ta) :
    generate_embeddings X m mo ta =
      (Datum_A.null_datum_deref,
        [Event.validate_embedding_method m,
          Event.validate_embedding_model (X.validate_embedding_method m) mo INPUT_TYPE_TEXT]) := by
  have h1 : ¬ X.validate_embedding_method m < 0 := by omega
  have h2 : ¬ X.validate_embedding_model (X.validate_embedding_method m) mo INPUT_TYPE_TEXT < 0 := by
    omega
  have h3 : ¬ ta.length = 0 := by
    intro h0
    rw [List.length_eq_zero.mp h0] at h
    simp at h
  simp [generate_embeddings, h1, h2, h3, slices_of_texts_null ta h]

/-! ## Properties -/

/-- C1, as stated, fails at its own example (ids `[7, 9]`, texts `["a", "b"]`,
backend vectors `[1,0,0]` and `[0,1,0]`): the third invocation signals
exhaustion, and the fourth, a first call again, returns the row `(7, [1,0,0])`
instead of signalling exhaustion. -/
theorem cursor_resumability_counterexample :
    (srf_request backend_example "fastembed" "m1" [some 7, some 9]
      [some text_a, some text_b] 4).1 =
      [.next 7 ⟨3, 0, [f_one, 0, 0]⟩, .next 9 ⟨3, 0, [0, f_one, 0]⟩, .done,
        .next 7 ⟨3, 0, [f_one, 0, 0]⟩]
    ∧ (srf_request backend_example "fastembed" "m1" [some 7, some 9]
      [some text_a, some text_b] 4).1.getLast? ≠ some SrfResult.done := by
  decide

/-- C1 (cursor resumability), amended.  For a valid method and model, NULL-free
`ids` and `texts` of equal length `n` (an `int`, so `n < 2^31`), and a backend
reply of status 0 carrying `n` vectors of dimension `dim` (their `n * dim` floats
taking fewer than `2^63` bytes, as any C object), the first `k ≤ n + 1` invocations of
`generate_embeddings_with_ids` yield, at invocation `j + 1`, the row
`(ids[j], v)` with `v` of dimension `dim` and `v[c] = data[j * dim + c]` when
`j < n`, and the exhaustion signal at invocation `n + 1`. -/
theorem cursor_resumability (X : Backend) (method_str model_str : String) (ids : List Int)
    (texts : List text) (B : EmbeddingBatch)
    (hmethod : 0 ≤ X.validate_embedding_method method_str)
    (hmodel : 0 ≤ X.validate_embedding_model (X.validate_embedding_method method_str)
      model_str INPUT_TYPE_TEXT)
    (hlen : ids.length = texts.length)
    (hint : texts.length < 2 ^ 31)
    (hreply : X.generate_embeddings_from_texts (X.validate_embedding_method method_str)
      (X.validate_embedding_model (X.validate_embedding_method method_str) model_str
        INPUT_TYPE_TEXT)
      (texts.map slice_of_text) texts.length = (0, B))
    (hn : B.n_vectors = texts.length)
    (hfit : texts.length * B.dim * 4 < 2 ^ 63)
    (k : Nat) (hk : k ≤ texts.length + 1) :
    (srf_request X method_str model_str (ids.map some) (texts.map some) k).1 =
      (List.range k).map (fun j =>
        if j < texts.length then
          SrfResult.next (ids.getD j 0)
            ⟨B.dim, 0, (List.range B.dim).map (fun c => B.data (j * B.dim + c))⟩
        else SrfResult.done) := by
  cases k with
  | zero => rfl
  | succ k =>
    rw [srf_request_rows X method_str model_str ids texts B hmethod hmodel hlen hreply
      (by omega) (by omega) k (by omega)]
    apply List.map_congr_left
    intro j _
    by_cases hj : j < texts.length
    · have hj1 : j < B.n_vectors := by omega
      simp only [hj, hj1, if_true]
      rw [copy_vector_eq B j hj1 (by rw [hn]; exact hfit)]
    · have hj1 : ¬ j < B.n_vectors := by omega
      simp only [hj, hj1, if_false]

/-- Witness of amended C1: ids `[7, 9]`, texts `["a", "b"]`, backend vectors
`[1,0,0]` and `[0,1,0]` give `(7, [1,0,0])`, then `(9, [0,1,0])`, then exhaustion. -/
theorem cursor_resumability_witness :
    (srf_request backend_example "fastembed" "m1" [some 7, some 9]
      [some text_a, some text_b] 3).1 =
      [.next 7 ⟨3, 0, [f_one, 0, 0]⟩, .next 9 ⟨3, 0, [0, f_one, 0]⟩, .done] :=
  (cursor_resumability backend_example "fastembed" "m1" [7, 9] [text_a, text_b]
    ⟨fun k => [f_one, 0, 0, 0, f_one, 0].getD k 0, 2, 3⟩
    (by decide) (by decide) rfl (by decide) rfl rfl (by decide) 3 (by decide)).trans
    (by decide)

/-- C2 at a failing input: texts `["a", NULL]`, valid method and model.
`generate_embeddings` passes the null datum of the second entry to
`DatumGetTextP` and never reaches the backend, so no slice is handed over and no
vector comes back; on the same texts (with ids `[7, 9]`)
`generate_embeddings_with_ids` reads the null flags and raises
`NullNotAllowed`. -/
theorem null_entry_dereferenced :
    generate_embeddings backend_example "fastembed" "m1" [some text_a, none] =
        (Datum_A.null_datum_deref,
          [Event.validate_embedding_method "fastembed",
            Event.validate_embedding_model 0 "m1" 0])
      ∧ generate_embeddings_with_ids backend_example "fastembed" "m1" [some 7, some 9]
          [some text_a, none] none =
        (SrfResult.error PgError.NullNotAllowed, none,
          [Event.validate_embedding_method "fastembed",
            Event.validate_embedding_model 0 "m1" 0]) := by
  decide

/-- Order preservation of `generate_embeddings` on NULL-free input.  For a valid
method and model and a non-empty collection of `n` texts, the backend is called
with `n` slices, slice `i` viewing exactly the bytes of text `i`; and when it
replies with status 0 and a batch of `n` vectors of dimension `dim`, the result
is the array of exactly `n` vectors whose vector `i` has dimension `dim` and
element `c` equal to `data[i * dim + c]`. -/
theorem generate_embeddings_order (X : Backend) (method_str model_str : String)
    (texts : List text)
    (hmethod : 0 ≤ X.validate_embedding_method method_str)
    (hmodel : 0 ≤ X.validate_embedding_model (X.validate_embedding_method method_str)
      model_str INPUT_TYPE_TEXT)
    (hne : texts ≠ []) (hint : texts.length < 2 ^ 31) :
    (generate_embeddings X method_str model_str (texts.map some)).2.filter Event.isBackendCall =
        [Event.generate_embeddings_from_texts (X.validate_embedding_method method_str)
          (X.validate_embedding_model (X.validate_embedding_method method_str) model_str
            INPUT_TYPE_TEXT)
          (texts.map slice_of_text) texts.length]
      ∧ (texts.map slice_of_text).length = texts.length
      ∧ (∀ (i : Nat) (h : i < texts.length),
          ((texts.map slice_of_text)[i]?).bind StringSlice.bytes = some (texts[i]).vardata)
      ∧ (∀ B : EmbeddingBatch,
          X.generate_embeddings_from_texts (X.validate_embedding_method method_str)
            (X.validate_embedding_model (X.validate_embedding_method method_str) model_str
              INPUT_TYPE_TEXT)
            (texts.map slice_of_text) texts.length = (0, B) →
          B.n_vectors = texts.length →
          texts.length * B.dim * 4 < 2 ^ 63 →
          (generate_embeddings X method_str model_str (texts.map some)).1 =
            Datum_A.array ((List.range texts.length).map (fun i =>
              ⟨B.dim, 0, (List.range B.dim).map (fun c => B.data (i * B.dim + c))⟩))) := by
  refine ⟨generate_embeddings_valid_trace X method_str model_str texts hmethod hmodel hne,
    by simp, ?_, ?_⟩
  · intro i h
    simp [List.getElem?_map, List.getElem?_eq_getElem h, slice_of_text_bytes]
  · intro B hB hn hfit
    rw [generate_embeddings_ok X method_str model_str texts B hmethod hmodel hne hB (by omega), hn]
    simp only [Datum_A.array.injEq]
    apply List.map_congr_left
    intro i hi
    exact copy_vector_eq B i (by rw [hn]; exact List.mem_range.mp hi) (by rw [hn]; exact hfit)

/-- C3 (arity check).  For a valid method and model, the first invocation of
`generate_embeddings_with_ids` on `ids` and `texts` of different lengths fails
with `ArityMismatch`, whatever the entries (NULLs included); no row is emitted,
nothing is stored, and the only calls made are the two validations. -/
theorem arity_check (X : Backend) (method_str model_str : String)
    (ids_array : List (Option Int)) (texts_array : List (Option text))
    (hmethod : 0 ≤ X.validate_embedding_method method_str)
    (hmodel : 0 ≤ X.validate_embedding_model (X.validate_embedding_method method_str)
      model_str INPUT_TYPE_TEXT)
    (harity : ids_array.length ≠ texts_array.length) :
    generate_embeddings_with_ids X method_str model_str ids_array texts_array none =
      (SrfResult.error PgError.ArityMismatch, none,
        [Event.validate_embedding_method method_str,
          Event.validate_embedding_model (X.validate_embedding_method method_str) model_str
            INPUT_TYPE_TEXT]) := by
  have h1 : ¬ X.validate_embedding_method method_str < 0 := by omega
  have h2 : ¬ X.validate_embedding_model (X.validate_embedding_method method_str) model_str
      INPUT_TYPE_TEXT < 0 := by omega
  simp [generate_embeddings_with_ids, srf_firstcall, h1, h2, harity]

/-- Witness of C3: two ids, one of them NULL, against one text. -/
theorem arity_check_witness :
    generate_embeddings_with_ids backend_example "fastembed" "m1" [none, some 1]
        [some text_a] none =
      (SrfResult.error PgError.ArityMismatch, none,
        [Event.validate_embedding_method "fastembed",
          Event.validate_embedding_model 0 "m1" 0]) :=
  arity_check backend_example "fastembed" "m1" [none, some 1] [some text_a]
    (by decide) (by decide) (by decide)

/-- C4, as stated, fails: `ids = [NULL, 1]` against `texts = ["a"]` holds a NULL
entry, and the first invocation fails with `ArityMismatch`, not `NullNotAllowed`. -/
theorem null_rejection_counterexample :
    none ∈ [none, some (1 : Int)] ∧
      (generate_embeddings_with_ids backend_example "fastembed" "m1" [none, some 1]
        [some text_a] none).1 ≠ SrfResult.error PgError.NullNotAllowed := by
  decide

/-- C4 (NULL rejection), amended.  For a valid method and model and `ids` and
`texts` of equal length, a NULL entry in either collection makes the first
invocation fail with `NullNotAllowed`; no row is emitted, nothing is stored, and
the only calls made are the two validations (the backend is not called). -/
theorem null_rejection (X : Backend) (method_str model_str : String)
    (ids_array : List (Option Int)) (texts_array : List (Option text))
    (hmethod : 0 ≤ X.validate_embedding_method method_str)
    (hmodel : 0 ≤ X.validate_embedding_model (X.validate_embedding_method method_str)
      model_str INPUT_TYPE_TEXT)
    (hlen : ids_array.length = texts_array.length)
    (hnull : none ∈ ids_array ∨ none ∈ texts_array) :
    generate_embeddings_with_ids X method_str model_str ids_array texts_array none =
      (SrfResult.error PgError.NullNotAllowed, none,
        [Event.validate_embedding_method method_str,
          Event.validate_embedding_model (X.validate_embedding_method method_str) model_str
            INPUT_TYPE_TEXT]) := by
  have h1 : ¬ X.validate_embedding_method method_str < 0 := by omega
  have h2 : ¬ X.validate_embedding_model (X.validate_embedding_method method_str) model_str
      INPUT_TYPE_TEXT < 0 := by omega
  simp [generate_embeddings_with_ids, srf_firstcall, h1, h2, hlen,
    assemble_with_ids_null ids_array texts_array hlen hnull]

/-- Witness of amended C4: the second text is NULL. -/
theorem null_rejection_witness :
    generate_embeddings_with_ids backend_example "fastembed" "m1" [some 7, some 9]
        [some text_a, none] none =
      (SrfResult.error PgError.NullNotAllowed, none,
        [Event.validate_embedding_method "fastembed",
          Event.validate_embedding_model 0 "m1" 0]) :=
  null_rejection backend_example "fastembed" "m1" [some 7, some 9] [some text_a, none]
    (by decide) (by decide) (by decide) (by decide)

/-- C5 (validation fails fast).  In both operations: if `validate_embedding_method`
returns a negative id the request fails with `InvalidMethod` after that single
call; otherwise `validate_embedding_model` is called with that method id and
`INPUT_TYPE_TEXT`, and if it returns a negative id the request fails with
`ModelNotAllowed` after those two calls.  In both cases the backend is not
called, nothing is produced or stored, and the collections play no part. -/
theorem validation_fails_fast (X : Backend) (method_str model_str : String)
    (input_array : List (Option text)) (ids_array : List (Option Int))
    (texts_array : List (Option text)) :
    (X.validate_embedding_method method_str < 0 →
        generate_embeddings X method_str model_str input_array =
          (Datum_A.error (PgError.InvalidMethod method_str),
            [Event.validate_embedding_method method_str])
        ∧ generate_embeddings_with_ids X method_str model_str ids_array texts_array none =
          (SrfResult.error (PgError.InvalidMethod method_str), none,
            [Event.validate_embedding_method method_str]))
      ∧ (0 ≤ X.validate_embedding_method method_str →
        X.validate_embedding_model (X.validate_embedding_method method_str) model_str
          INPUT_TYPE_TEXT < 0 →
        generate_embeddings X method_str model_str input_array =
          (Datum_A.error (PgError.ModelNotAllowed model_str),
            [Event.validate_embedding_method method_str,
              Event.validate_embedding_model (X.validate_embedding_method method_str)
                model_str INPUT_TYPE_TEXT])
        ∧ generate_embeddings_with_ids X method_str model_str ids_array texts_array none =
          (SrfResult.error (PgError.ModelNotAllowed model_str), none,
            [Event.validate_embedding_method method_str,
              Event.validate_embedding_model (X.validate_embedding_method method_str)
                model_str INPUT_TYPE_TEXT])) := by
  constructor
  · intro h
    simp [generate_embeddings, generate_embeddings_with_ids, srf_firstcall, h]
  · intro h1 h2
    have h3 : ¬ X.validate_embedding_method method_str < 0 := by omega
    simp [generate_embeddings, generate_embeddings_with_ids, srf_firstcall, h2, h3]

/-- Witness of C5: the unknown method "word2vec", and the unknown model "m2" of
"fastembed", each on an empty, a NULL-carrying and a mismatched input. -/
theorem validation_fails_fast_witness :
    (generate_embeddings backend_example "word2vec" "m1" [] =
        (Datum_A.error (PgError.InvalidMethod "word2vec"),
          [Event.validate_embedding_method "word2vec"])
      ∧ generate_embeddings_with_ids backend_example "word2vec" "m1" [none] [] none =
        (SrfResult.error (PgError.InvalidMethod "word2vec"), none,
          [Event.validate_embedding_method "word2vec"]))
    ∧ (generate_embeddings backend_example "fastembed" "m2" [] =
        (Datum_A.error (PgError.ModelNotAllowed "m2"),
          [Event.validate_embedding_method "fastembed",
            Event.validate_embedding_model
              (backend_example.validate_embedding_method "fastembed") "m2" INPUT_TYPE_TEXT])
      ∧ generate_embeddings_with_ids backend_example "fastembed" "m2" [none] [] none =
        (SrfResult.error (PgError.ModelNotAllowed "m2"), none,
          [Event.validate_embedding_method "fastembed",
            Event.validate_embedding_model
              (backend_example.validate_embedding_method "fastembed") "m2" INPUT_TYPE_TEXT])) :=
  ⟨(validation_fails_fast backend_example "word2vec" "m1" [] [none] []).1 (by decide),
    (validation_fails_fast backend_example "fastembed" "m2" [] [none] []).2
      (by decide) (by decide)⟩

/-- C6 at failing inputs: empty `ids` and `texts`, valid method and model.  The
first invocation of `generate_embeddings_with_ids` calls the backend with zero
slices: with a backend answering status 0 and zero vectors it then reports
exhaustion, and with a backend answering status -1 it fails with
`BackendError(-1)`; `generate_embeddings` on the empty collection makes no
backend call. -/
theorem empty_input_with_ids_calls_backend :
    generate_embeddings_with_ids (backend_double 0 [] 0 0) "fastembed" "m1" [] [] none =
        (SrfResult.done, none,
          [Event.validate_embedding_method "fastembed",
            Event.validate_embedding_model 0 "m1" 0,
            Event.generate_embeddings_from_texts 0 5 [] 0,
            Event.free_embedding_batch])
      ∧ generate_embeddings_with_ids (backend_double (-1) [] 0 0) "fastembed" "m1" [] [] none =
        (SrfResult.error (PgError.BackendError (-1)), none,
          [Event.validate_embedding_method "fastembed",
            Event.validate_embedding_model 0 "m1" 0,
            Event.generate_embeddings_from_texts 0 5 [] 0])
      ∧ generate_embeddings (backend_double (-1) [] 0 0) "fastembed" "m1" [] =
        (Datum_A.null,
          [Event.validate_embedding_method "fastembed",
            Event.validate_embedding_model 0 "m1" 0]) := by
  decide

/-- C7 (empty input on `generate_embeddings`).  For a valid method and model, an
empty text collection gives the NULL result, with no error, and the only calls
made are the two validations (the backend is not called). -/
theorem empty_input_returns_null (X : Backend) (method_str model_str : String)
    (hmethod : 0 ≤ X.validate_embedding_method method_str)
    (hmodel : 0 ≤ X.validate_embedding_model (X.validate_embedding_method method_str)
      model_str INPUT_TYPE_TEXT) :
    generate_embeddings X method_str model_str [] =
      (Datum_A.null,
        [Event.validate_embedding_method method_str,
          Event.validate_embedding_model (X.validate_embedding_method method_str) model_str
            INPUT_TYPE_TEXT]) := by
  have h1 : ¬ X.validate_embedding_method method_str < 0 := by omega
  have h2 : ¬ X.validate_embedding_model (X.validate_embedding_method method_str) model_str
      INPUT_TYPE_TEXT < 0 := by omega
  simp [generate_embeddings, h1, h2]

/-- Witness of C7: method "fastembed", model "m1". -/
theorem empty_input_returns_null_witness :
    generate_embeddings backend_example "fastembed" "m1" [] =
      (Datum_A.null,
        [Event.validate_embedding_method "fastembed",
          Event.validate_embedding_model 0 "m1" 0]) :=
  empty_input_returns_null backend_example "fastembed" "m1" (by decide) (by decide)

/-- C8, as stated, fails twice: `generate_embeddings` on a valid request of size
0 does not call the backend at all; and five invocations of
`generate_embeddings_with_ids` on a valid request of size 2 (rows at invocations
1 and 2, exhaustion at 3, a first call again at 4) call the backend twice. -/
theorem single_backend_call_counterexample :
    0 ≤ backend_example.validate_embedding_method "fastembed" ∧
      0 ≤ backend_example.validate_embedding_model 0 "m1" INPUT_TYPE_TEXT ∧
      ((generate_embeddings backend_example "fastembed" "m1" []).2.filter
        Event.isBackendCall).length = 0 ∧
      ((srf_request backend_example "fastembed" "m1" [some 7, some 9]
        [some text_a, some text_b] 5).2.filter Event.isBackendCall).length = 2 := by
  decide

/-- C8 (single backend call), amended.  For a valid method and model and a
non-empty NULL-free collection of `n` texts: `generate_embeddings` calls the
backend exactly once, with the `n` slices in input order and the validated
method and model ids; and so do, with `n` NULL-free ids, the first `k + 1`
invocations of `generate_embeddings_with_ids` as long as none of the first `k`
has signalled exhaustion, the two validations being made exactly once as well.
`generate_embeddings` on the empty collection does not call the backend. -/
theorem single_backend_call (X : Backend) (method_str model_str : String) (ids : List Int)
    (texts : List text)
    (hmethod : 0 ≤ X.validate_embedding_method method_str)
    (hmodel : 0 ≤ X.validate_embedding_model (X.validate_embedding_method method_str)
      model_str INPUT_TYPE_TEXT)
    (hne : texts ≠ []) :
    (generate_embeddings X method_str model_str (texts.map some)).2.filter
          Event.isBackendCall =
        [Event.generate_embeddings_from_texts (X.validate_embedding_method method_str)
          (X.validate_embedding_model (X.validate_embedding_method method_str) model_str
            INPUT_TYPE_TEXT)
          (texts.map slice_of_text) texts.length]
      ∧ (ids.length = texts.length → ∀ k : Nat,
        SrfResult.done ∉
          (srf_request X method_str model_str (ids.map some) (texts.map some) k).1 →
        (srf_request X method_str model_str (ids.map some) (texts.map some) (k + 1)).2.filter
            Event.isBackendCall =
          [Event.generate_embeddings_from_texts (X.validate_embedding_method method_str)
            (X.validate_embedding_model (X.validate_embedding_method method_str) model_str
              INPUT_TYPE_TEXT)
            (texts.map slice_of_text) texts.length]
        ∧ (srf_request X method_str model_str (ids.map some) (texts.map some) (k + 1)).2.filter
            Event.isValidation =
          [Event.validate_embedding_method method_str,
            Event.validate_embedding_model (X.validate_embedding_method method_str) model_str
              INPUT_TYPE_TEXT])
      ∧ (generate_embeddings X method_str model_str []).2.filter Event.isBackendCall = [] := by
  have h1 : ¬ X.validate_embedding_method method_str < 0 := by omega
  have h2 : ¬ X.validate_embedding_model (X.validate_embedding_method method_str) model_str
      INPUT_TYPE_TEXT < 0 := by omega
  refine ⟨generate_embeddings_valid_trace X method_str model_str texts hmethod hmodel hne,
    ?_, ?_⟩
  · intro hlen k hk
    rw [srf_request_trace X method_str model_str _ _ k hk]
    exact srf_firstcall_valid_trace X method_str model_str ids texts hmethod hmodel hlen
  · simp [generate_embeddings, h1, h2, Event.isBackendCall]

/-- Witness of amended C8: texts `["a", "b"]`, ids `[7, 9]`; two rows and the
exhaustion signal, with one backend call. -/
theorem single_backend_call_witness :
    (generate_embeddings backend_example "fastembed" "m1"
        [some text_a, some text_b]).2.filter Event.isBackendCall =
        [Event.generate_embeddings_from_texts 0 5 [⟨[97], 1⟩, ⟨[98], 1⟩] 2]
      ∧ (srf_request backend_example "fastembed" "m1" [some 7, some 9]
          [some text_a, some text_b] 3).2.filter Event.isBackendCall =
        [Event.generate_embeddings_from_texts 0 5 [⟨[97], 1⟩, ⟨[98], 1⟩] 2] :=
  ⟨(single_backend_call backend_example "fastembed" "m1" [7, 9] [text_a, text_b]
      (by decide) (by decide) (by decide)).1,
    ((single_backend_call backend_example "fastembed" "m1" [7, 9] [text_a, text_b]
      (by decide) (by decide) (by decide)).2.1 (by decide) 2 (by decide)).1⟩

/-- C9 at a failing input: one id, one text, valid method and model, and a
backend that answers status -1 with a batch.  `generate_embeddings` releases the
batch before failing; `generate_embeddings_with_ids` fails with the same
`BackendError(-1)` without ever calling `free_embedding_batch`. -/
theorem backend_failure_release :
    generate_embeddings (backend_double (-1) [f_one] 1 1) "fastembed" "m1" [some text_a] =
        (Datum_A.error (PgError.BackendError (-1)),
          [Event.validate_embedding_method "fastembed",
            Event.validate_embedding_model 0 "m1" 0,
            Event.generate_embeddings_from_texts 0 5 [⟨[97], 1⟩] 1,
            Event.free_embedding_batch])
      ∧ generate_embeddings_with_ids (backend_double (-1) [f_one] 1 1) "fastembed" "m1"
          [some 7] [some text_a] none =
        (SrfResult.error (PgError.BackendError (-1)), none,
          [Event.validate_embedding_method "fastembed",
            Event.validate_embedding_model 0 "m1" 0,
            Event.generate_embeddings_from_texts 0 5 [⟨[97], 1⟩] 1]) := by
  decide

/-- C10, as stated, fails: for one input text and a backend reply of status 0
with two vectors, `generate_embeddings` does not fail; it returns an array of
two vectors. -/
theorem vector_count_mismatch_counterexample :
    ∃ vs : List Vector,
      (generate_embeddings (backend_double 0 [f_one, 0] 2 1) "fastembed" "m1"
        [some text_a]).1 = Datum_A.array vs ∧ vs.length ≠ [some text_a].length :=
  ⟨[⟨1, 0, [f_one]⟩, ⟨1, 0, [0]⟩], by decide, by decide⟩

/-- C10 (vector count), amended.  The backend's `n_vectors` is not compared with
the number `n` of inputs.  For a valid method and model, a non-empty NULL-free
collection of `n` texts and a backend reply of status 0 with a batch `B` of
fewer than `2^31` vectors whose `n_vectors * dim` floats take fewer than `2^63`
bytes: `generate_embeddings` returns exactly `B.n_vectors` vectors, vector `i`
holding `data[i * dim ..]`; with `n` NULL-free ids, the cursor stored by
`generate_embeddings_with_ids` has `nitems = B.n_vectors`, and when
`B.n_vectors ≤ n` its first `k ≤ B.n_vectors + 1` invocations yield the rows
`(ids[j], vector j)` for `j < B.n_vectors` and then the exhaustion signal, the
ids from index `B.n_vectors` on not being emitted. -/
theorem vector_count_unchecked (X : Backend) (method_str model_str : String) (ids : List Int)
    (texts : List text) (B : EmbeddingBatch)
    (hmethod : 0 ≤ X.validate_embedding_method method_str)
    (hmodel : 0 ≤ X.validate_embedding_model (X.validate_embedding_method method_str)
      model_str INPUT_TYPE_TEXT)
    (hne : texts ≠ [])
    (hreply : X.generate_embeddings_from_texts (X.validate_embedding_method method_str)
      (X.validate_embedding_model (X.validate_embedding_method method_str) model_str
        INPUT_TYPE_TEXT)
      (texts.map slice_of_text) texts.length = (0, B))
    (hnv : B.n_vectors < 2 ^ 31)
    (hfit : B.n_vectors * B.dim * 4 < 2 ^ 63) :
    (generate_embeddings X method_str model_str (texts.map some)).1 =
        Datum_A.array ((List.range B.n_vectors).map (fun i =>
          ⟨B.dim, 0, (List.range B.dim).map (fun c => B.data (i * B.dim + c))⟩))
      ∧ (ids.length = texts.length →
        (∃ fctx : user_fctx,
          (srf_firstcall X method_str model_str (ids.map some) (texts.map some)).1 =
            FirstCall.ok fctx ∧ fctx.nitems = (B.n_vectors : Int) ∧ fctx.ids = ids ∧
            fctx.current = 0)
        ∧ (B.n_vectors ≤ texts.length → ∀ k : Nat, k ≤ B.n_vectors + 1 →
          (srf_request X method_str model_str (ids.map some) (texts.map some) k).1 =
            (List.range k).map (fun j =>
              if j < B.n_vectors then
                SrfResult.next (ids.getD j 0)
                  ⟨B.dim, 0, (List.range B.dim).map (fun c => B.data (j * B.dim + c))⟩
              else SrfResult.done))) := by
  constructor
  · rw [generate_embeddings_ok X method_str model_str texts B hmethod hmodel hne hreply hnv]
    simp only [Datum_A.array.injEq]
    apply List.map_congr_left
    intro i hi
    exact copy_vector_eq B i (List.mem_range.mp hi) hfit
  · intro hlen
    constructor
    · rw [srf_firstcall_ok X method_str model_str ids texts B hmethod hmodel hlen hreply hnv]
      exact ⟨_, rfl, rfl, rfl, rfl⟩
    · intro hle k hk
      cases k with
      | zero => rfl
      | succ k =>
        rw [srf_request_rows X method_str model_str ids texts B hmethod hmodel hlen hreply hnv
          hle k (by omega)]
        apply List.map_congr_left
        intro j _
        by_cases hj : j < B.n_vectors
        · simp only [hj, if_true]
          rw [copy_vector_eq B j hj hfit]
        · simp only [hj, if_false]

/-- Witness of amended C10: two inputs, a reply of status 0 with one vector
`[1,0,0]`: the one-shot result has one vector, and the stream emits `(7, [1,0,0])`
and then the exhaustion signal, id 9 not being emitted. -/
theorem vector_count_unchecked_witness :
    (generate_embeddings (backend_double 0 [f_one, 0, 0] 1 3) "fastembed" "m1"
        [some text_a, some text_b]).1 = Datum_A.array [⟨3, 0, [f_one, 0, 0]⟩]
      ∧ (srf_request (backend_double 0 [f_one, 0, 0] 1 3) "fastembed" "m1" [some 7, some 9]
          [some text_a, some text_b] 2).1 =
        [.next 7 ⟨3, 0, [f_one, 0, 0]⟩, .done] :=
  ⟨((vector_count_unchecked (backend_double 0 [f_one, 0, 0] 1 3) "fastembed" "m1" [7, 9]
      [text_a, text_b] ⟨fun k => [f_one, 0, 0].getD k 0, 1, 3⟩
      (by decide) (by decide) (by decide) rfl (by decide) (by decide)).1).trans (by decide),
    (((vector_count_unchecked (backend_double 0 [f_one, 0, 0] 1 3) "fastembed" "m1" [7, 9]
      [text_a, text_b] ⟨fun k => [f_one, 0, 0].getD k 0, 1, 3⟩
      (by decide) (by decide) (by decide) rfl (by decide) (by decide)).2 (by decide)).2
      (by decide) 2 (by decide)).trans (by decide)⟩

end PgGembed
